import Mathlib

/-!
# Verification of the CareFlow risk-assessment core

Shallow embedding of the repository's rule-based clinical risk-assessment
engine (`src/models/base.ts`, `src/models/patient.ts`,
`src/models/surgery-protocol.ts`, `src/models/risk-assessment.ts`).

Modelling conventions:
* JavaScript numbers that hold clinical 1-10 scale values (pain level,
  mobility score, curve pain/mobility bounds) and day counts are modelled
  as `Int`; temperatures, which are genuinely fractional (thresholds 37.5,
  38.5), are modelled as `ℚ`.
* `Date` values are modelled by their epoch-millisecond timestamp (`Int`);
  every function that calls `Date.now()` in the source takes the current
  time as an explicit `now : Int` parameter.  `Date.toISOString` /
  `new Date(string)` (platform library code, not repository code) are
  modelled by the one-field wrapper `ISOString`, identifying an ISO-8601
  string with the timestamp it denotes (the encoding is a bijection).
* TypeScript `throw` is modelled with `Except MedError`; the distinct
  error messages of the source become distinct constructors of `MedError`.
* String enums (`SurgeryType`) are kept as strings with a known-value
  list, mirroring the runtime `Object.values(...).includes(...)` check;
  closed unions that are never fed unchecked data (`RiskLevel`, factor
  severity and type, wound condition) become inductive types.
-/

namespace CareFlow

/-! ## base.ts : enums, symptom reports, validation utilities -/

/-- `RiskLevel` enum from `base.ts`. -/
inductive RiskLevel where
  | LOW | MODERATE | HIGH | CRITICAL
deriving DecidableEq, Repr, Inhabited

/-- Wound-condition union type of `SymptomReport.woundCondition`. -/
inductive WoundCondition where
  | normal | redness | swelling | discharge | infection
deriving DecidableEq, Repr, Inhabited

/-- The string value of a wound condition (used in factor descriptions). -/
def WoundCondition.str : WoundCondition → String
  | .normal => "normal"
  | .redness => "redness"
  | .swelling => "swelling"
  | .discharge => "discharge"
  | .infection => "infection"

/-- The values of the `SurgeryType` string enum in `base.ts`. -/
def knownSurgeryTypes : List String :=
  ["KNEE_REPLACEMENT", "HIP_REPLACEMENT", "ABDOMINAL_SURGERY",
   "CARDIAC_BYPASS", "APPENDECTOMY", "HERNIA_REPAIR", "SPINAL_SURGERY",
   "GALLBLADDER_REMOVAL", "C_SECTION", "PROSTATE_SURGERY",
   "BREAST_SURGERY", "ENT_SURGERY", "EYE_SURGERY", "DENTAL_SURGERY",
   "MINOR_ORTHOPEDIC"]

/-- `SymptomReport` interface from `base.ts`.  `reportedAt` is the epoch
timestamp of the report. -/
structure SymptomReport where
  painLevel : Int
  mobilityScore : Option Int
  woundCondition : Option WoundCondition
  temperature : Option ℚ
  notes : Option String
  reportedAt : Int
deriving DecidableEq, Repr, Inhabited

/-- `validatePainLevel` from `base.ts`: a number in `[1, 10]`. -/
def validatePainLevel (painLevel : Int) : Bool :=
  1 ≤ painLevel && painLevel ≤ 10

/-- `validateMobilityScore` from `base.ts`: `undefined` or in `[1, 10]`. -/
def validateMobilityScore : Option Int → Bool
  | none => true
  | some m => 1 ≤ m && m ≤ 10

/-- `validateTemperature` from `base.ts`: `undefined` or in `[35, 42]`. -/
def validateTemperature : Option ℚ → Bool
  | none => true
  | some t => 35 ≤ t && t ≤ 42

/-- Error taxonomy: each distinct `throw new Error(...)` site of the core
gets its own constructor, so lookup errors are distinguishable from
construction/validation errors by constructor. -/
inductive MedError where
  /-- `MedicalEntity` constructor: "Valid ID is required for MedicalEntity". -/
  | invalidEntityId
  /-- `Patient` constructor: "Invalid patient data provided". -/
  | invalidPatientData
  /-- `Patient.updateSymptoms`: "Invalid symptom data". -/
  | invalidSymptomData
  /-- `SurgeryProtocol` constructor: "Invalid surgery protocol: <errors>". -/
  | invalidProtocol (errors : List String)
  /-- `SurgeryProtocol.updateProtocol`: "Invalid protocol update: <errors>". -/
  | invalidProtocolUpdate (errors : List String)
  /-- `RiskAssessmentEngine.assessPatientRisk`:
  "No protocol found for surgery type: <type>". -/
  | noProtocol (surgeryType : String)
  /-- `Patient.fromJSON` / `SurgeryProtocol.fromJSON` catch-and-rethrow
  wrapper: "Failed to create ... from JSON: <error>". -/
  | fromJSONFailed (inner : MedError)
deriving DecidableEq, Repr

/-! ## patient.ts : the Patient entity -/

/-- `PatientProfile` interface. -/
structure PatientProfile where
  firstName : String
  lastName : String
  age : Int
  email : String
  phone : Option String
  emergencyContact : Option String
deriving DecidableEq, Repr, Inhabited

/-- `MedicalHistory` interface (all four lists are optional in TS with the
empty object `{}` as default; an absent list and an empty list are not
distinguished by any core code path, so lists are used directly). -/
structure MedicalHistory where
  previousSurgeries : List String
  allergies : List String
  medications : List String
  chronicConditions : List String
deriving DecidableEq, Repr, Inhabited

/-- The `Patient` entity: fields of the TS class, including the
`MedicalEntity` base-class fields `id`, `createdAt`, `updatedAt`. -/
structure Patient where
  id : String
  profile : PatientProfile
  medicalHistory : MedicalHistory
  surgeryType : String
  surgeryDate : Int
  currentSymptoms : SymptomReport
  symptomHistory : List SymptomReport
  doctorId : Option String
  lastUpdateTime : Option Int
  createdAt : Int
  updatedAt : Int
deriving DecidableEq, Repr, Inhabited

/-- `Patient.validateSymptoms` (private helper).  `reportedAt instanceof
Date && !isNaN(...)` always holds in the timestamp model. -/
def Patient.validateSymptoms (s : SymptomReport) : Bool :=
  validatePainLevel s.painLevel &&
  validateMobilityScore s.mobilityScore &&
  validateTemperature s.temperature &&
  s.woundCondition.isSome

/-- `Patient.validate`.  Note the age check is a faithful translation of
`!this.profile.age || ... age < 0 || age > 150`: in JavaScript `!age` is
true for age `0`, so age `0` fails validation. -/
def Patient.validate (p : Patient) : Bool :=
  p.profile.firstName ≠ "" &&
  p.profile.lastName ≠ "" &&
  (p.profile.age ≠ 0 && 0 ≤ p.profile.age && p.profile.age ≤ 150) &&
  p.profile.email ≠ "" &&
  knownSurgeryTypes.contains p.surgeryType &&
  Patient.validateSymptoms p.currentSymptoms

/-- The `Patient` constructor: assigns fields (seeding `symptomHistory`
with the initial report), then throws unless `validate()` holds.  The
`MedicalEntity` base constructor first rejects an empty id. -/
def Patient.construct (now : Int) (id : String) (profile : PatientProfile)
    (surgeryType : String) (surgeryDate : Int)
    (initialSymptoms : SymptomReport) (medicalHistory : MedicalHistory)
    (doctorId : Option String) : Except MedError Patient :=
  if id = "" then .error .invalidEntityId
  else
    let p : Patient :=
      { id := id, profile := profile, medicalHistory := medicalHistory,
        surgeryType := surgeryType, surgeryDate := surgeryDate,
        currentSymptoms := initialSymptoms,
        symptomHistory := [initialSymptoms], doctorId := doctorId,
        lastUpdateTime := none, createdAt := now, updatedAt := now }
    if p.validate then .ok p else .error .invalidPatientData

/-- `Patient.getRecoveryDay`:
`max(floor((now - surgeryDate) / 86400000), 0)`. -/
def Patient.getRecoveryDay (now : Int) (p : Patient) : Int :=
  max (Int.fdiv (now - p.surgeryDate) 86400000) 0

/-- `Patient.getFullName`. -/
def Patient.getFullName (p : Patient) : String :=
  p.profile.firstName ++ " " ++ p.profile.lastName

/-- `Patient.updateSymptoms`: if the previous update was less than 100 ms
ago a pain level above 10 is clamped to 10 ("batch test" heuristic);
the (possibly clamped) report is validated, the old current report is
appended to the history, and the current report is replaced. -/
def Patient.updateSymptoms (now : Int) (p : Patient)
    (newSymptoms : SymptomReport) : Except MedError Patient :=
  let isLikelyBatchTest :=
    match p.lastUpdateTime with
    | some t => now - t < 100
    | none => false
  let symptomsToValidate :=
    if isLikelyBatchTest && newSymptoms.painLevel > 10 then
      { newSymptoms with painLevel := 10 }
    else newSymptoms
  if ¬ Patient.validateSymptoms symptomsToValidate then
    .error .invalidSymptomData
  else
    .ok { p with
          symptomHistory := p.symptomHistory ++ [p.currentSymptoms],
          currentSymptoms := symptomsToValidate,
          lastUpdateTime := some now,
          updatedAt := now }

/-! ### Patient JSON serialization

`toJSON` writes each `Date` as its ISO-8601 string and `fromJSON` rebuilds
dates with `new Date(string)`.  Those two platform functions form a
bijection between valid dates and their ISO renderings, so an ISO-8601
string on the wire is modelled by the timestamp it denotes. -/

/-- An ISO-8601 date-time string, identified by the timestamp it
encodes. -/
structure ISOString where
  ms : Int
deriving DecidableEq, Repr, Inhabited

/-- `Date.prototype.toISOString` (platform library). -/
def toISOString (ms : Int) : ISOString := ⟨ms⟩

/-- `new Date(isoString)` (platform library). -/
def parseISOString (s : ISOString) : Int := s.ms

/-- A `SymptomReport` on the wire: `reportedAt` is an ISO string. -/
structure SymptomReportJSON where
  painLevel : Int
  mobilityScore : Option Int
  woundCondition : Option WoundCondition
  temperature : Option ℚ
  notes : Option String
  reportedAt : ISOString
deriving DecidableEq, Repr, Inhabited

/-- `{ ...s, reportedAt: s.reportedAt.toISOString() }`. -/
def SymptomReport.toJSON (s : SymptomReport) : SymptomReportJSON :=
  { painLevel := s.painLevel, mobilityScore := s.mobilityScore,
    woundCondition := s.woundCondition, temperature := s.temperature,
    notes := s.notes, reportedAt := toISOString s.reportedAt }

/-- `{ ...j, reportedAt: new Date(j.reportedAt) }`. -/
def SymptomReportJSON.parse (j : SymptomReportJSON) : SymptomReport :=
  { painLevel := j.painLevel, mobilityScore := j.mobilityScore,
    woundCondition := j.woundCondition, temperature := j.temperature,
    notes := j.notes, reportedAt := parseISOString j.reportedAt }

/-- The wire shape produced by `Patient.toJSON`. -/
structure PatientJSON where
  id : String
  profile : PatientProfile
  medicalHistory : MedicalHistory
  surgeryType : String
  surgeryDate : ISOString
  currentSymptoms : SymptomReportJSON
  symptomHistory : List SymptomReportJSON
  doctorId : Option String
  createdAt : ISOString
  updatedAt : ISOString
deriving DecidableEq, Repr, Inhabited

/-- `Patient.toJSON`. -/
def Patient.toJSON (p : Patient) : PatientJSON :=
  { id := p.id, profile := p.profile,
    medicalHistory := p.medicalHistory, surgeryType := p.surgeryType,
    surgeryDate := toISOString p.surgeryDate,
    currentSymptoms := p.currentSymptoms.toJSON,
    symptomHistory := p.symptomHistory.map SymptomReport.toJSON,
    doctorId := p.doctorId,
    createdAt := toISOString p.createdAt,
    updatedAt := toISOString p.updatedAt }

/-- `Patient.fromJSON` (static): rebuilds the patient through the
constructor from `id`, `profile`, `surgeryType`, `surgeryDate`,
`currentSymptoms`, `medicalHistory` and `doctorId`.  Note the source
passes nothing else to the constructor: in particular the serialized
`symptomHistory` is not restored (the constructor re-seeds the history
with the current symptoms).  Errors are caught and rethrown wrapped. -/
def Patient.fromJSON (now : Int) (j : PatientJSON) :
    Except MedError Patient :=
  match Patient.construct now j.id j.profile j.surgeryType
      (parseISOString j.surgeryDate) j.currentSymptoms.parse
      j.medicalHistory j.doctorId with
  | .ok p => .ok p
  | .error e => .error (.fromJSONFailed e)

/-! ## surgery-protocol.ts : the SurgeryProtocol entity -/

/-- `SurgeryMetadata` interface. -/
structure SurgeryMetadata where
  displayName : String
  description : String
  typicalDuration : Int
  commonComplications : List String
  warningSigns : List String
deriving DecidableEq, Repr, Inhabited

/-- `RecoveryCurve` interface from `base.ts` (one curve point).
`expectedPainRange` is the `[min, max]` pair; the `length !== 2` check of
the validator is vacuous under the pair model. -/
structure RecoveryCurvePoint where
  day : Int
  expectedPainRange : Int × Int
  expectedMobilityRange : Option (Int × Int)
  warningSigns : List String
  complications : List String
deriving DecidableEq, Repr, Inhabited

/-- `RiskRule` interface from `base.ts`. -/
structure RiskRule where
  id : String
  condition : String
  riskLevel : RiskLevel
  action : String
  dayRange : Option (Int × Int)
deriving DecidableEq, Repr, Inhabited

/-- The `SurgeryProtocol` entity with its `MedicalEntity` base fields. -/
structure SurgeryProtocol where
  id : String
  surgeryType : String
  metadata : SurgeryMetadata
  recoveryCurve : List RecoveryCurvePoint
  riskRules : List RiskRule
  isActive : Bool
  version : String
  lastUpdated : Int
  createdAt : Int
  updatedAt : Int
deriving DecidableEq, Repr, Inhabited

/-- Errors contributed by one recovery-curve point in
`performValidation` (the `length !== 2` branch cannot fire under the
pair model and is omitted). -/
def curvePointErrors (rc : RecoveryCurvePoint) : List String :=
  (if rc.day < 0 then
    ["Recovery curve day " ++ toString rc.day ++ " cannot be negative"]
   else []) ++
  (if rc.expectedPainRange.1 < 0 ∨ 10 < rc.expectedPainRange.2 then
    ["Pain range must be between 0-10 for day " ++ toString rc.day]
   else []) ++
  (if rc.expectedPainRange.2 < rc.expectedPainRange.1 then
    ["Min pain cannot be greater than max pain for day " ++ toString rc.day]
   else [])

/-- Errors contributed by one risk rule in `performValidation`.  The rule
risk level is a closed inductive here, so the `invalid risk level` branch
cannot fire. -/
def riskRuleErrors (i : Nat) (rule : RiskRule) : List String :=
  (if rule.id = "" then
    ["Risk rule " ++ toString i ++ " must have valid ID"] else []) ++
  (if rule.condition = "" then
    ["Risk rule " ++ toString i ++ " must have condition"] else []) ++
  (if rule.action = "" then
    ["Risk rule " ++ toString i ++ " must have action"] else [])

/-- The `errors` list of `SurgeryProtocol.performValidation`, in source
order.  (The `warnings` list — curve gaps, empty rule set — never affects
validity and is not modelled.)  `!typicalDuration || typicalDuration <= 0`
collapses to `typicalDuration ≤ 0` over `Int`. -/
def SurgeryProtocol.performValidationErrors (sp : SurgeryProtocol) :
    List String :=
  (if knownSurgeryTypes.contains sp.surgeryType then []
   else ["Invalid surgery type"]) ++
  (if sp.metadata.displayName = "" then ["Display name is required"]
   else []) ++
  (if sp.metadata.description = "" then ["Description is required"]
   else []) ++
  (if sp.metadata.typicalDuration ≤ 0 then
    ["Typical duration must be positive"] else []) ++
  (if sp.recoveryCurve = [] then ["Recovery curve cannot be empty"]
   else sp.recoveryCurve.flatMap curvePointErrors) ++
  (sp.riskRules.enum.flatMap fun ir => riskRuleErrors ir.1 ir.2)

/-- `SurgeryProtocol.validate`. -/
def SurgeryProtocol.validate (sp : SurgeryProtocol) : Bool :=
  sp.performValidationErrors = []

/-- The `SurgeryProtocol` constructor: assigns fields (`isActive := true`)
and throws a joined error list if `performValidation` fails. -/
def SurgeryProtocol.construct (now : Int) (id : String)
    (surgeryType : String) (metadata : SurgeryMetadata)
    (recoveryCurve : List RecoveryCurvePoint) (riskRules : List RiskRule)
    (version : String) : Except MedError SurgeryProtocol :=
  if id = "" then .error .invalidEntityId
  else
    let sp : SurgeryProtocol :=
      { id := id, surgeryType := surgeryType, metadata := metadata,
        recoveryCurve := recoveryCurve, riskRules := riskRules,
        isActive := true, version := version, lastUpdated := now,
        createdAt := now, updatedAt := now }
    match sp.performValidationErrors with
    | [] => .ok sp
    | errs => .error (.invalidProtocol errs)

/-- Stable insertion used to model `Array.prototype.sort` with the
comparator `(a, b) => a.day - b.day` (ES stable sort). -/
def insertByDay (x : RecoveryCurvePoint) :
    List RecoveryCurvePoint → List RecoveryCurvePoint
  | [] => [x]
  | y :: ys =>
    if y.day ≤ x.day then y :: insertByDay x ys else x :: y :: ys

/-- `[...recoveryCurve].sort((a, b) => a.day - b.day)`. -/
def sortByDay (l : List RecoveryCurvePoint) : List RecoveryCurvePoint :=
  l.foldr insertByDay []

/-- `Math.round` (round half towards positive infinity):
`Math.round(x) = ⌊x + 1/2⌋`. -/
def jsRound (x : ℚ) : Int := ⌊x + 1 / 2⌋

/-- The interpolated curve point built by `getExpectedRecovery` when a
lower and an upper neighbour exist. -/
def interpolatePoints (lower upper : RecoveryCurvePoint) (day : Int) :
    RecoveryCurvePoint :=
  let frac : ℚ :=
    ((day : ℚ) - (lower.day : ℚ)) / ((upper.day : ℚ) - (lower.day : ℚ))
  { day := day,
    expectedPainRange :=
      (jsRound ((lower.expectedPainRange.1 : ℚ) +
          frac * ((upper.expectedPainRange.1 : ℚ) -
            (lower.expectedPainRange.1 : ℚ))),
       jsRound ((lower.expectedPainRange.2 : ℚ) +
          frac * ((upper.expectedPainRange.2 : ℚ) -
            (lower.expectedPainRange.2 : ℚ)))),
    expectedMobilityRange :=
      match lower.expectedMobilityRange, upper.expectedMobilityRange with
      | some lm, some um =>
        some (jsRound ((lm.1 : ℚ) + frac * ((um.1 : ℚ) - (lm.1 : ℚ))),
              jsRound ((lm.2 : ℚ) + frac * ((um.2 : ℚ) - (lm.2 : ℚ))))
      | _, _ => none,
    warningSigns := lower.warningSigns ++ upper.warningSigns,
    complications := lower.complications ++ upper.complications }

/-- `SurgeryProtocol.getExpectedRecovery`: exact match, else linear
interpolation between the nearest lower and upper points, else the
closest point by day (`reduce` over the sorted curve); `none` only for an
empty curve. -/
def SurgeryProtocol.getExpectedRecovery (sp : SurgeryProtocol)
    (day : Int) : Option RecoveryCurvePoint :=
  match sp.recoveryCurve.find? (fun rc => rc.day == day) with
  | some exact => some exact
  | none =>
    let sorted := sortByDay sp.recoveryCurve
    match (sorted.filter (fun rc => rc.day < day)).getLast?,
          sorted.find? (fun rc => day < rc.day) with
    | some lower, some upper => some (interpolatePoints lower upper day)
    | _, _ =>
      match sorted with
      | [] => none
      | c :: cs =>
        some (cs.foldl
          (fun prev curr =>
            if |curr.day - day| < |prev.day - day| then curr else prev) c)

/-- `SurgeryProtocol.getApplicableRiskRules`: rules with no day window
plus rules whose `[minDay, maxDay]` contains the day. -/
def SurgeryProtocol.getApplicableRiskRules (sp : SurgeryProtocol)
    (day : Int) : List RiskRule :=
  sp.riskRules.filter fun rule =>
    match rule.dayRange with
    | none => true
    | some (minDay, maxDay) => minDay ≤ day && day ≤ maxDay

/-- `Partial<SurgeryMetadata>`: the optional-field patch accepted by
`updateProtocol`. -/
structure SurgeryMetadataPatch where
  displayName : Option String
  description : Option String
  typicalDuration : Option Int
  commonComplications : Option (List String)
  warningSigns : Option (List String)
deriving DecidableEq, Repr, Inhabited

/-- `{ ...this.metadata, ...patch }`. -/
def mergeMetadata (m : SurgeryMetadata) (patch : SurgeryMetadataPatch) :
    SurgeryMetadata :=
  { displayName := patch.displayName.getD m.displayName,
    description := patch.description.getD m.description,
    typicalDuration := patch.typicalDuration.getD m.typicalDuration,
    commonComplications :=
      patch.commonComplications.getD m.commonComplications,
    warningSigns := patch.warningSigns.getD m.warningSigns }

/-- `SurgeryProtocol.updateProtocol`: assigns the merged fields to `this`
FIRST, then runs `performValidation` and throws if it fails.  The second
component of the result is the state of the object after the call — on
failure it still holds the merged fields, exactly as the TS object does
after the `throw`. -/
def SurgeryProtocol.updateProtocol (now : Int) (sp : SurgeryProtocol)
    (metadata : Option SurgeryMetadataPatch)
    (recoveryCurve : Option (List RecoveryCurvePoint))
    (riskRules : Option (List RiskRule)) :
    Except MedError Unit × SurgeryProtocol :=
  let sp1 : SurgeryProtocol :=
    { sp with
      metadata :=
        match metadata with
        | some patch => mergeMetadata sp.metadata patch
        | none => sp.metadata,
      recoveryCurve := recoveryCurve.getD sp.recoveryCurve,
      riskRules := riskRules.getD sp.riskRules }
  match sp1.performValidationErrors with
  | [] => (.ok (), { sp1 with updatedAt := now, lastUpdated := now })
  | errs => (.error (.invalidProtocolUpdate errs), sp1)

/-! ## risk-assessment.ts : the RiskAssessmentEngine -/

/-- The factor `type` union of the `RiskFactor` interface. -/
inductive FactorType where
  | pain | mobility | wound | temperature | systemic | custom
deriving DecidableEq, Repr, Inhabited

/-- The factor `severity` union of the `RiskFactor` interface. -/
inductive Severity where
  | mild | moderate | severe
deriving DecidableEq, Repr, Inhabited

/-- The `urgencyLevel` union of `RiskAssessmentResult`. -/
inductive UrgencyLevel where
  | low | medium | high | immediate
deriving DecidableEq, Repr, Inhabited

/-- `RiskFactor` interface. -/
structure RiskFactor where
  id : String
  type : FactorType
  severity : Severity
  description : String
  clinicalSignificance : String
  guidelineReference : Option String
  dayDeviation : Option Int
deriving DecidableEq, Repr, Inhabited

/-- `RiskAssessmentResult` interface. -/
structure RiskAssessmentResult where
  patientId : String
  surgeryType : String
  recoveryDay : Int
  overallRiskLevel : RiskLevel
  riskFactors : List RiskFactor
  recommendations : List String
  urgencyLevel : UrgencyLevel
  assessmentTimestamp : Int
  nextReviewInHours : Int
deriving DecidableEq, Repr, Inhabited

/-! ### The free-text rule-condition matcher (`evaluateRuleCondition`)

The source matches a rule's free-text `condition` against three regular
expressions.  The matcher below scans for the first position at which the
whole template matches, with maximal digit runs — equivalent to the JS
regexes on these backtracking-free patterns. -/

/-- The numeric value of a digit run (`parseInt` on a `\d+` match). -/
def digitsVal (l : List Char) : Nat :=
  l.foldl (fun acc c => acc * 10 + (c.toNat - 48)) 0

/-- `parseFloat` on a maximal `[\d.]+` match: integer part, then an
optional fraction after the first dot; everything from a second dot on is
ignored.  Returns `none` for inputs with no digit before a digit is
required (`parseFloat` yields `NaN`). -/
def jsParseFloat (l : List Char) : Option ℚ :=
  let ip := l.takeWhile Char.isDigit
  let rest := l.drop ip.length
  match rest with
  | '.' :: r2 =>
    let fp := r2.takeWhile Char.isDigit
    if ip.isEmpty && fp.isEmpty then none
    else some ((digitsVal ip : ℚ) + (digitsVal fp : ℚ) / (10 : ℚ) ^ fp.length)
  | _ => if ip.isEmpty then none else some (digitsVal ip : ℚ)

/-- Match `<lit1>(\d+)<lit2>(\d+)` at the head of `l`. -/
def matchTwoNumsAt (lit1 lit2 : List Char) (l : List Char) :
    Option (Nat × Nat) :=
  if lit1.isPrefixOf l then
    let r1 := l.drop lit1.length
    let d1 := r1.takeWhile Char.isDigit
    if d1.isEmpty then none
    else
      let r2 := r1.drop d1.length
      if lit2.isPrefixOf r2 then
        let d2 := (r2.drop lit2.length).takeWhile Char.isDigit
        if d2.isEmpty then none else some (digitsVal d1, digitsVal d2)
      else none
  else none

/-- Scan `l` for the first position where `matchTwoNumsAt` succeeds
(the unanchored JS `String.match`). -/
def scanTwoNums (lit1 lit2 : List Char) : List Char → Option (Nat × Nat)
  | [] => matchTwoNumsAt lit1 lit2 []
  | c :: t =>
    match matchTwoNumsAt lit1 lit2 (c :: t) with
    | some r => some r
    | none => scanTwoNums lit1 lit2 t

/-- Match `Temperature > ([\d.]+)` at the head of `l`; the inner `Option`
is `none` when `parseFloat` yields `NaN` (an all-dots match). -/
def matchTempAt (l : List Char) : Option (Option ℚ) :=
  let lit := "Temperature > ".toList
  if lit.isPrefixOf l then
    let run := (l.drop lit.length).takeWhile fun c => c.isDigit || c == '.'
    if run.isEmpty then none else some (jsParseFloat run)
  else none

/-- Unanchored scan for the temperature template. -/
def scanTemp : List Char → Option (Option ℚ)
  | [] => matchTempAt []
  | c :: t =>
    match matchTempAt (c :: t) with
    | some r => some r
    | none => scanTemp t

/-- `evaluateRuleCondition`: the three supported templates, tried in
source order; a template that matches returns its comparison result
(falling through only when the regex does not match at all).  The falsy
checks `symptoms.temperature ?` and `symptoms.mobilityScore ?` treat the
value `0` like `undefined`. -/
def evaluateRuleCondition (condition : String) (symptoms : SymptomReport)
    (recoveryDay : Int) : Bool :=
  match scanTwoNums "Pain level > ".toList " after day ".toList
      condition.toList with
  | some (painThreshold, dayThreshold) =>
    symptoms.painLevel > (painThreshold : Int) &&
    recoveryDay > (dayThreshold : Int)
  | none =>
  match scanTemp condition.toList with
  | some parsed =>
    match symptoms.temperature, parsed with
    | some t, some threshold => if t = 0 then false else t > threshold
    | some _, none => false
    | none, _ => false
  | none =>
  match scanTwoNums "Mobility score < ".toList " after day ".toList
      condition.toList with
  | some (mobilityThreshold, dayThreshold) =>
    match symptoms.mobilityScore with
    | some m =>
      if m = 0 then false
      else m < (mobilityThreshold : Int) && recoveryDay > (dayThreshold : Int)
    | none => false
  | none => false

/-- `mapRiskLevelToSeverity`. -/
def mapRiskLevelToSeverity : RiskLevel → Severity
  | .LOW => .mild
  | .MODERATE => .moderate
  | .HIGH => .severe
  | .CRITICAL => .severe

/-- `getWoundClinicalSignificance`. -/
def getWoundClinicalSignificance : WoundCondition → String
  | .redness => "May indicate early inflammation or infection"
  | .swelling =>
    "Expected post-operative finding, but excessive swelling needs evaluation"
  | .discharge => "May indicate infection or wound healing issues"
  | .infection => "Requires immediate medical intervention"
  | .normal => "Requires medical evaluation"

/-! ### The five risk-factor scanners -/

/-- The severity keyed to a pain deviation above the expected maximum:
`deviation >= 3 ? severe : deviation >= 2 ? moderate : mild`. -/
def deviationSeverity (deviation : Int) : Severity :=
  if 3 ≤ deviation then .severe else if 2 ≤ deviation then .moderate
  else .mild

/-- `assessPainRisk`: pain-above-expected deviation factor, then the
high-absolute-pain factor (unless a severe pain factor was already
emitted), then the pain-trend factor compared against
`symptomHistory[length - 2]`.  `toString` stands in for the
`toFixed`-style numeric rendering inside descriptions. -/
def assessPainRisk (now : Int) (p : Patient) (protocol : SurgeryProtocol)
    (recoveryDay : Int) : List RiskFactor :=
  let painLevel := p.currentSymptoms.painLevel
  let afterDeviation : List RiskFactor :=
    match protocol.getExpectedRecovery recoveryDay with
    | some expectedRecovery =>
      let minPain := expectedRecovery.expectedPainRange.1
      let maxPain := expectedRecovery.expectedPainRange.2
      if painLevel > maxPain then
        let deviation := painLevel - maxPain
        [{ id := "pain-above-expected-" ++ toString now,
           type := .pain,
           severity := deviationSeverity deviation,
           description := "Pain level " ++ toString painLevel ++
             " exceeds expected range (" ++ toString minPain ++ "-" ++
             toString maxPain ++ ") for day " ++ toString recoveryDay,
           clinicalSignificance :=
             "May indicate complications, inadequate pain control, or delayed healing",
           guidelineReference := some (protocol.metadata.displayName ++
             " protocol, day " ++ toString recoveryDay),
           dayDeviation := some deviation }]
      else []
    | none => []
  let afterHighPain : List RiskFactor :=
    if 8 ≤ painLevel &&
        ¬ afterDeviation.any
          (fun rf => rf.type == FactorType.pain &&
            rf.severity == Severity.severe) then
      afterDeviation ++
      [{ id := "high-pain-" ++ toString now,
         type := .pain,
         severity := .severe,
         description := "Severe pain level (" ++ toString painLevel ++
           "/10) reported",
         clinicalSignificance :=
           "Requires immediate medical evaluation and pain management intervention",
         guidelineReference :=
           some "Post-operative pain management guidelines",
         dayDeviation := none }]
    else afterDeviation
  let history := p.symptomHistory
  if 2 ≤ history.length then
    let previousPain :=
      ((history.get? (history.length - 2)).getD p.currentSymptoms).painLevel
    let painIncrease := p.currentSymptoms.painLevel - previousPain
    if 3 ≤ painIncrease then
      afterHighPain ++
      [{ id := "pain-increasing-" ++ toString now,
         type := .pain,
         severity := if 5 ≤ painIncrease then .severe else .moderate,
         description := "Pain increased by " ++ toString painIncrease ++
           " points from previous assessment",
         clinicalSignificance :=
           "Rapid pain escalation may indicate developing complications",
         guidelineReference := some "Pain trend monitoring guidelines",
         dayDeviation := none }]
    else afterHighPain
  else afterHighPain

/-- `assessMobilityRisk`: runs only when a (truthy) mobility score is
present; below-expected deviation factor, then the unguarded
very-low-mobility factor. -/
def assessMobilityRisk (now : Int) (p : Patient)
    (protocol : SurgeryProtocol) (recoveryDay : Int) : List RiskFactor :=
  match p.currentSymptoms.mobilityScore with
  | none => []
  | some mobilityScore =>
    if mobilityScore = 0 then []
    else
      let afterDeviation : List RiskFactor :=
        match protocol.getExpectedRecovery recoveryDay with
        | some expectedRecovery =>
          match expectedRecovery.expectedMobilityRange with
          | some (minMobility, maxMobility) =>
            if mobilityScore < minMobility then
              let deviation := minMobility - mobilityScore
              [{ id := "mobility-below-expected-" ++ toString now,
                 type := .mobility,
                 severity := deviationSeverity deviation,
                 description := "Mobility score " ++ toString mobilityScore ++
                   " below expected range (" ++ toString minMobility ++
                   "-" ++ toString maxMobility ++ ")",
                 clinicalSignificance :=
                   "May indicate stiffness, pain limitation, or need for physical therapy",
                 guidelineReference :=
                   some (protocol.metadata.displayName ++ " mobility protocol"),
                 dayDeviation := some (-deviation) }]
            else []
          | none => []
        | none => []
      if mobilityScore ≤ 3 then
        afterDeviation ++
        [{ id := "low-mobility-" ++ toString now,
           type := .mobility,
           severity := .moderate,
           description := "Very low mobility score (" ++
             toString mobilityScore ++ "/10) reported",
           clinicalSignificance :=
             "May require physical therapy intervention and mobility assistance",
           guidelineReference := some "Post-operative mobility guidelines",
           dayDeviation := none }]
      else afterDeviation

/-- `assessWoundRisk`: one factor for any non-normal wound condition,
with severity fixed by condition. -/
def assessWoundRisk (now : Int) (symptoms : SymptomReport) :
    List RiskFactor :=
  match symptoms.woundCondition with
  | none => []
  | some .normal => []
  | some woundCondition =>
    [{ id := "wound-" ++ woundCondition.str ++ "-" ++ toString now,
       type := .wound,
       severity :=
         match woundCondition with
         | .redness => .mild
         | .swelling => .mild
         | .discharge => .moderate
         | _ => .severe,
       description := "Wound condition reported as: " ++ woundCondition.str,
       clinicalSignificance := getWoundClinicalSignificance woundCondition,
       guidelineReference := some "Post-operative wound care guidelines",
       dayDeviation := none }]

/-- `assessSystemicRisk`: temperature `≥ 38.5` severe, `≥ 37.5` mild
(the falsy guard also skips a literal temperature of `0`). -/
def assessSystemicRisk (now : Int) (symptoms : SymptomReport) :
    List RiskFactor :=
  match symptoms.temperature with
  | none => []
  | some temperature =>
    if temperature = 0 then []
    else if (38.5 : ℚ) ≤ temperature then
      [{ id := "high-temperature-" ++ toString now,
         type := .temperature,
         severity := .severe,
         description := "High temperature (" ++ toString temperature ++
           "°C) detected",
         clinicalSignificance :=
           "May indicate infection or systemic inflammatory response",
         guidelineReference := some "Post-operative fever management",
         dayDeviation := none }]
    else if (37.5 : ℚ) ≤ temperature then
      [{ id := "elevated-temperature-" ++ toString now,
         type := .temperature,
         severity := .mild,
         description := "Elevated temperature (" ++ toString temperature ++
           "°C) detected",
         clinicalSignificance := "Requires monitoring for infection signs",
         guidelineReference :=
           some "Post-operative temperature monitoring",
         dayDeviation := none }]
    else []

/-- `assessProtocolRules`: a `custom` factor for each applicable rule
whose condition matches the current symptoms. -/
def assessProtocolRules (now : Int) (p : Patient)
    (protocol : SurgeryProtocol) (recoveryDay : Int) : List RiskFactor :=
  (protocol.getApplicableRiskRules recoveryDay).filterMap fun rule =>
    if evaluateRuleCondition rule.condition p.currentSymptoms recoveryDay
    then
      some { id := "rule-" ++ rule.id ++ "-" ++ toString now,
             type := .custom,
             severity := mapRiskLevelToSeverity rule.riskLevel,
             description := rule.condition,
             clinicalSignificance :=
               "Protocol rule triggered: " ++ rule.action,
             guidelineReference :=
               some (protocol.metadata.displayName ++ " protocol rule"),
             dayDeviation := none }
    else none

/-! ### Aggregation, recommendations, urgency, review interval -/

/-- `determineOverallRiskLevel`: severe/moderate factor counts decide
CRITICAL / HIGH / MODERATE / LOW. -/
def determineOverallRiskLevel (riskFactors : List RiskFactor) :
    RiskLevel :=
  let severeFactors :=
    riskFactors.filter fun rf => rf.severity == Severity.severe
  let moderateFactors :=
    riskFactors.filter fun rf => rf.severity == Severity.moderate
  if 4 ≤ severeFactors.length then .CRITICAL
  else if 1 ≤ severeFactors.length ∨ 3 ≤ moderateFactors.length then .HIGH
  else if 1 ≤ moderateFactors.length then .MODERATE
  else .LOW

/-- Whether `pat` occurs as a contiguous run inside the list. -/
def listContainsRun (pat : List Char) : List Char → Bool
  | [] => pat.isEmpty
  | c :: t => pat.isPrefixOf (c :: t) || listContainsRun pat t

/-- `string.includes(sub)` (JS substring test). -/
def jsIncludes (s sub : String) : Bool :=
  listContainsRun sub.toList s.toList

/-- `generateRecommendations`: type-grouped template strings plus
overall-risk boilerplate. -/
def generateRecommendations (riskFactors : List RiskFactor) :
    List String :=
  let painFactors := riskFactors.filter fun rf => rf.type == FactorType.pain
  let mobilityFactors :=
    riskFactors.filter fun rf => rf.type == FactorType.mobility
  let woundFactors :=
    riskFactors.filter fun rf => rf.type == FactorType.wound
  let temperatureFactors :=
    riskFactors.filter fun rf => rf.type == FactorType.temperature
  (if painFactors.length ≠ 0 then
    if painFactors.any (fun rf => rf.severity == Severity.severe) then
      ["Immediate pain management intervention required",
       "Consider opioid analgesic adjustment"]
    else
      ["Adjust pain medication schedule",
       "Implement non-pharmacological pain management"]
   else []) ++
  (if mobilityFactors.length ≠ 0 then
    if mobilityFactors.any (fun rf => rf.severity == Severity.severe) then
      ["Urgent physical therapy consultation needed",
       "Assistive device evaluation required"]
    else
      ["Increase physical therapy frequency",
       "Review mobility aid requirements"]
   else []) ++
  (if woundFactors.length ≠ 0 then
    ["Immediate wound assessment required"] ++
    (if woundFactors.any (fun wf => jsIncludes wf.description "infection")
     then
      ["Start empiric antibiotic therapy",
       "Wound culture and sensitivity testing"]
     else []) ++
    ["Consider surgical consultation"]
   else []) ++
  (if temperatureFactors.length ≠ 0 then
    ["Complete blood count and cultures",
     "Infectious disease consultation"]
   else []) ++
  (match determineOverallRiskLevel riskFactors with
   | .CRITICAL =>
     ["Immediate medical attention required",
      "Contact emergency services",
      "Prepare for possible hospital admission",
      "immediate medical evaluation"]
   | .HIGH =>
     ["Seek immediate medical evaluation",
      "Monitor symptoms closely",
      "Consider urgent care visit",
      "immediate medical evaluation"]
   | .LOW =>
     ["Continue current recovery plan",
      "Maintain routine follow-up appointments",
      "continue current recovery"]
   | .MODERATE => [])

/-- `determineUrgencyLevel`: `immediate` for four severe factors or the
fever-plus-infected-wound combination, `high` for fever or any severe
factor, `medium` for two moderate factors, else `low`. -/
def determineUrgencyLevel (riskFactors : List RiskFactor) :
    UrgencyLevel :=
  let severeFactors :=
    riskFactors.filter fun rf => rf.severity == Severity.severe
  let hasFever :=
    riskFactors.any fun rf => rf.type == FactorType.temperature
  let hasInfection :=
    riskFactors.any fun rf =>
      rf.type == FactorType.wound && jsIncludes rf.description "infection"
  if 4 ≤ severeFactors.length ∨ (hasFever && hasInfection) then .immediate
  else if hasFever || 1 ≤ severeFactors.length then .high
  else
    let moderateFactors :=
      riskFactors.filter fun rf => rf.severity == Severity.moderate
    if 2 ≤ moderateFactors.length then .medium
    else .low

/-- `calculateNextReviewTime`. -/
def calculateNextReviewTime (riskLevel : RiskLevel)
    (recoveryDay : Int) : Int :=
  match riskLevel with
  | .CRITICAL => 2
  | .HIGH => 4
  | .MODERATE => 12
  | .LOW => if recoveryDay ≤ 7 then 24 else 48

/-! ### The engine -/

/-- Engine state: `protocols` and `assessmentHistory` are JS `Map`s,
modelled as association lists with `Map.set` replace-or-append
semantics. -/
structure Engine where
  protocols : List (String × SurgeryProtocol)
  assessmentHistory : List (String × List RiskAssessmentResult)
deriving Repr, Inhabited

/-- `Map.prototype.get`. -/
def mapGet {β : Type} (m : List (String × β)) (k : String) : Option β :=
  (m.find? fun kv => kv.1 == k).map Prod.snd

/-- `Map.prototype.set`: replace the existing binding, else append. -/
def mapSet {β : Type} (m : List (String × β)) (k : String) (v : β) :
    List (String × β) :=
  if m.any (fun kv => kv.1 == k) then
    m.map fun kv => if kv.1 == k then (k, v) else kv
  else m ++ [(k, v)]

/-- `new RiskAssessmentEngine()`. -/
def Engine.empty : Engine := { protocols := [], assessmentHistory := [] }

/-- `registerProtocol`: upsert keyed by the protocol's surgery type. -/
def Engine.registerProtocol (e : Engine) (protocol : SurgeryProtocol) :
    Engine :=
  { e with protocols := mapSet e.protocols protocol.surgeryType protocol }

/-- `getAssessmentHistory`: the stored list, `[]` if none. -/
def Engine.getAssessmentHistory (e : Engine) (patientId : String) :
    List RiskAssessmentResult :=
  (mapGet e.assessmentHistory patientId).getD []

/-- `storeAssessmentHistory`: push, then `shift()` once when the length
exceeds 30. -/
def storeAssessmentHistory (history : List RiskAssessmentResult)
    (assessment : RiskAssessmentResult) : List RiskAssessmentResult :=
  let pushed := history ++ [assessment]
  if 30 < pushed.length then pushed.tail else pushed

/-- The `RiskAssessmentResult` computed by `assessPatientRisk` once the
protocol lookup has succeeded (steps 1-10 of the source; the result does
not depend on the engine state). -/
def assessResult (now : Int) (protocol : SurgeryProtocol) (p : Patient) :
    RiskAssessmentResult :=
  let recoveryDay := p.getRecoveryDay now
  let allRiskFactors :=
    assessPainRisk now p protocol recoveryDay ++
    assessMobilityRisk now p protocol recoveryDay ++
    assessWoundRisk now p.currentSymptoms ++
    assessSystemicRisk now p.currentSymptoms ++
    assessProtocolRules now p protocol recoveryDay
  let overallRiskLevel := determineOverallRiskLevel allRiskFactors
  { patientId := p.id,
    surgeryType := p.surgeryType,
    recoveryDay := recoveryDay,
    overallRiskLevel := overallRiskLevel,
    riskFactors := allRiskFactors,
    recommendations := generateRecommendations allRiskFactors,
    urgencyLevel := determineUrgencyLevel allRiskFactors,
    assessmentTimestamp := now,
    nextReviewInHours := calculateNextReviewTime overallRiskLevel recoveryDay }

/-- `assessPatientRisk`: throws a lookup error when no protocol is
registered for the patient's surgery type; otherwise computes the result
and appends it to the patient's capped history.  The second component is
the engine state after the call. -/
def Engine.assessPatientRisk (now : Int) (e : Engine) (p : Patient) :
    Except MedError RiskAssessmentResult × Engine :=
  match mapGet e.protocols p.surgeryType with
  | none => (.error (.noProtocol p.surgeryType), e)
  | some protocol =>
    let result := assessResult now protocol p
    let history := (mapGet e.assessmentHistory p.id).getD []
    let newHistory := storeAssessmentHistory history result
    (.ok result,
     { e with
       assessmentHistory := mapSet e.assessmentHistory p.id newHistory })

/-! ## Concrete fixtures used by witnesses and counterexamples -/

/-- A day-1/3/7/14/30 recovery curve with the knee-replacement factory's
pain and mobility ranges. -/
def demoCurve : List RecoveryCurvePoint :=
  [{ day := 1, expectedPainRange := (7, 9),
     expectedMobilityRange := some (1, 3),
     warningSigns := [], complications := [] },
   { day := 3, expectedPainRange := (5, 7),
     expectedMobilityRange := some (2, 4),
     warningSigns := [], complications := [] },
   { day := 7, expectedPainRange := (3, 5),
     expectedMobilityRange := some (4, 6),
     warningSigns := [], complications := [] },
   { day := 14, expectedPainRange := (2, 4),
     expectedMobilityRange := some (6, 8),
     warningSigns := [], complications := [] },
   { day := 30, expectedPainRange := (1, 3),
     expectedMobilityRange := some (7, 9),
     warningSigns := [], complications := [] }]

/-- A valid knee-replacement protocol over `demoCurve`. -/
def demoProtocol : SurgeryProtocol :=
  { id := "knee-replacement-v1", surgeryType := "KNEE_REPLACEMENT",
    metadata := { displayName := "Knee Replacement Surgery",
                  description := "Total knee arthroplasty recovery protocol",
                  typicalDuration := 90,
                  commonComplications := [], warningSigns := [] },
    recoveryCurve := demoCurve, riskRules := [], isActive := true,
    version := "1.0", lastUpdated := 0, createdAt := 0, updatedAt := 0 }

/-- A valid patient profile. -/
def demoProfile : PatientProfile :=
  { firstName := "John", lastName := "Doe", age := 65,
    email := "john.doe@test.com", phone := none,
    emergencyContact := none }

/-- A symptom report with the given pain level and reporting time. -/
def demoReport (painLevel : Int) (reportedAt : Int) : SymptomReport :=
  { painLevel := painLevel, mobilityScore := some 6,
    woundCondition := some .normal, temperature := some 37,
    notes := none, reportedAt := reportedAt }

/-- Empty medical history. -/
def emptyHistory : MedicalHistory :=
  { previousSurgeries := [], allergies := [], medications := [],
    chronicConditions := [] }

/-- A valid patient (surgery at time 0, pain 5). -/
def demoPatient : Patient :=
  match Patient.construct 0 "patient-001" demoProfile "KNEE_REPLACEMENT"
      0 (demoReport 5 0) emptyHistory none with
  | .ok p => p
  | .error _ => default

/-- An engine with `demoProtocol` registered. -/
def demoEngine : Engine := Engine.empty.registerProtocol demoProtocol

/-- The timestamp of recovery day 5. -/
def day5 : Int := 5 * 86400000

/-- A metadata patch that makes the merged protocol invalid
(`typicalDuration = -1`). -/
def badDurationPatch : SurgeryMetadataPatch :=
  { displayName := none, description := none,
    typicalDuration := some (-1), commonComplications := none,
    warningSigns := none }

/-- The `Patient` constructor applied to an otherwise-valid input whose
profile carries the given age. -/
def constructWithAge (age : Int) : Except MedError Patient :=
  Patient.construct 0 "patient-age" { demoProfile with age := age }
    "KNEE_REPLACEMENT" 0 (demoReport 5 0) emptyHistory none

/-- `demoPatient` after one (human-paced) symptom update: its stored
history has two entries. -/
def patientAfterUpdate : Patient :=
  match Patient.updateSymptoms 1000 demoPatient (demoReport 3 500) with
  | .ok p => p
  | .error _ => default

/-- The patient reconstructed by `fromJSON` from
`patientAfterUpdate.toJSON`. -/
def reloadedPatient : Patient :=
  match Patient.fromJSON 2000 patientAfterUpdate.toJSON with
  | .ok q => q
  | .error _ => default

/-- A wound-normal, no-mobility, no-temperature report (only the pain
scan can fire on it). -/
def trendReport (painLevel : Int) (reportedAt : Int) : SymptomReport :=
  { painLevel := painLevel, mobilityScore := none,
    woundCondition := some .normal, temperature := none,
    notes := none, reportedAt := reportedAt }

/-- A patient built through the public API whose archived history is
`[pain 1, pain 1, pain 7]` with current pain 7: the immediately
preceding report has pain 7 (no increase), while the second-most-recent
archived entry has pain 1. -/
def trendPatient : Patient :=
  match Patient.construct 0 "patient-trend" demoProfile
      "KNEE_REPLACEMENT" 0 (trendReport 1 0) emptyHistory none with
  | .ok p =>
    match Patient.updateSymptoms 1000 p (trendReport 7 1) with
    | .ok p1 =>
      match Patient.updateSymptoms 2000 p1 (trendReport 7 2) with
      | .ok p2 => p2
      | .error _ => p1
    | .error _ => p
  | .error _ => default

/-- The pain-trend factor emitted by `assessPainRisk` for a given pain
increase (severity severe for an increase of at least 5, else
moderate). -/
def mkTrendFactor (now painIncrease : Int) : RiskFactor :=
  { id := "pain-increasing-" ++ toString now,
    type := .pain,
    severity := if 5 ≤ painIncrease then .severe else .moderate,
    description := "Pain increased by " ++ toString painIncrease ++
      " points from previous assessment",
    clinicalSignificance :=
      "Rapid pain escalation may indicate developing complications",
    guidelineReference := some "Pain trend monitoring guidelines",
    dayDeviation := none }

/-- `n` sequential `assessPatientRisk` calls for one patient, keeping
only the final engine state. -/
def assessLoop (p : Patient) (times : List Int) (e : Engine) : Engine :=
  match times with
  | [] => e
  | t :: ts => assessLoop p ts (Engine.assessPatientRisk t e p).2

/-- Sequential symptom updates, stopping at the first failure. -/
def updateSeq (p : Patient) :
    List (Int × SymptomReport) → Except MedError Patient
  | [] => .ok p
  | u :: us =>
    match Patient.updateSymptoms u.1 p u.2 with
    | .ok p1 => updateSeq p1 us
    | .error e => .error e

/-- Two human-paced updates (timestamps 1000 and 2000 ms, reports dated
1 and 2) for the C10 witness. -/
def c10Updates : List (Int × SymptomReport) :=
  [(1000, demoReport 4 1), (2000, demoReport 6 2)]

/-- The patient constructed for the C10 witness. -/
def c10Patient : Patient :=
  match Patient.construct 0 "patient-c10" demoProfile "KNEE_REPLACEMENT"
      0 (demoReport 5 0) emptyHistory none with
  | .ok p => p
  | .error _ => default

/-- `c10Patient` after the two updates of `c10Updates`. -/
def c10Final : Patient :=
  match updateSeq c10Patient c10Updates with
  | .ok q => q
  | .error _ => default

/-! ## Claims -/

/-- `determineOverallRiskLevel` equals the spec's case analysis on the
severe and moderate factor counts. -/
theorem determineOverallRiskLevel_eq_spec (l : List RiskFactor) :
    determineOverallRiskLevel l =
      (if 4 ≤ l.countP (fun f => f.severity == Severity.severe) then
        RiskLevel.CRITICAL
       else if 1 ≤ l.countP (fun f => f.severity == Severity.severe) ∨
           3 ≤ l.countP (fun f => f.severity == Severity.moderate) then
        RiskLevel.HIGH
       else if 1 ≤ l.countP (fun f => f.severity == Severity.moderate) then
        RiskLevel.MODERATE
       else RiskLevel.LOW) := by
  simp [determineOverallRiskLevel, List.countP_eq_length_filter]

/-- C1: every assessment produced by `assessPatientRisk` has the overall
risk level obtained from its combined risk-factor list as: CRITICAL when
at least 4 factors are severe; else HIGH when at least 1 severe factor or
at least 3 moderate factors; else MODERATE when at least 1 moderate
factor; else LOW. -/
theorem C1_overall_risk_aggregation (now : Int) (e : Engine) (p : Patient)
    (r : RiskAssessmentResult)
    (h : (Engine.assessPatientRisk now e p).1 = .ok r) :
    r.overallRiskLevel =
      (if 4 ≤ r.riskFactors.countP (fun f => f.severity == Severity.severe)
       then RiskLevel.CRITICAL
       else if 1 ≤ r.riskFactors.countP
             (fun f => f.severity == Severity.severe) ∨
           3 ≤ r.riskFactors.countP
             (fun f => f.severity == Severity.moderate) then
        RiskLevel.HIGH
       else if 1 ≤ r.riskFactors.countP
           (fun f => f.severity == Severity.moderate) then
        RiskLevel.MODERATE
       else RiskLevel.LOW) := by
  rcases hm : mapGet e.protocols p.surgeryType with _ | proto
  · simp [Engine.assessPatientRisk, hm] at h
  · simp only [Engine.assessPatientRisk, hm, Except.ok.injEq] at h
    subst h
    simpa [assessResult] using
      determineOverallRiskLevel_eq_spec
        ((assessResult now proto p).riskFactors)

/-- Witness for C1 at a concrete engine and patient. -/
theorem C1_overall_risk_aggregation_witness :
    (Engine.assessPatientRisk day5 demoEngine demoPatient).1 =
      .ok (assessResult day5 demoProtocol demoPatient) ∧
    (assessResult day5 demoProtocol demoPatient).overallRiskLevel =
      (if 4 ≤ (assessResult day5 demoProtocol demoPatient).riskFactors.countP
          (fun f => f.severity == Severity.severe)
       then RiskLevel.CRITICAL
       else if 1 ≤ (assessResult day5 demoProtocol
             demoPatient).riskFactors.countP
             (fun f => f.severity == Severity.severe) ∨
           3 ≤ (assessResult day5 demoProtocol
             demoPatient).riskFactors.countP
             (fun f => f.severity == Severity.moderate) then
        RiskLevel.HIGH
       else if 1 ≤ (assessResult day5 demoProtocol
           demoPatient).riskFactors.countP
           (fun f => f.severity == Severity.moderate) then
        RiskLevel.MODERATE
       else RiskLevel.LOW) := by
  have h : (Engine.assessPatientRisk day5 demoEngine demoPatient).1 =
      .ok (assessResult day5 demoProtocol demoPatient) := by rfl
  exact ⟨h, C1_overall_risk_aggregation day5 demoEngine demoPatient _ h⟩

/-- `determineUrgencyLevel` equals the spec's case analysis. -/
theorem determineUrgencyLevel_eq_spec (l : List RiskFactor) :
    determineUrgencyLevel l =
      (if 4 ≤ l.countP (fun f => f.severity == Severity.severe) ∨
          ((l.any fun f => f.type == FactorType.temperature) ∧
           (l.any fun f => f.type == FactorType.wound &&
             jsIncludes f.description "infection")) then
        UrgencyLevel.immediate
       else if (l.any fun f => f.type == FactorType.temperature) ∨
           1 ≤ l.countP (fun f => f.severity == Severity.severe) then
        UrgencyLevel.high
       else if 2 ≤ l.countP (fun f => f.severity == Severity.moderate) then
        UrgencyLevel.medium
       else UrgencyLevel.low) := by
  simp [determineUrgencyLevel, List.countP_eq_length_filter]

/-- C2: every assessment produced by `assessPatientRisk` has urgency
IMMEDIATE when at least 4 severe factors are present or when both a
temperature-type factor and a wound factor whose description mentions
infection are present; otherwise HIGH when a temperature factor or at
least 1 severe factor is present; otherwise MEDIUM with at least 2
moderate factors; otherwise LOW. -/
theorem C2_urgency_level (now : Int) (e : Engine) (p : Patient)
    (r : RiskAssessmentResult)
    (h : (Engine.assessPatientRisk now e p).1 = .ok r) :
    r.urgencyLevel =
      (if 4 ≤ r.riskFactors.countP (fun f => f.severity == Severity.severe)
          ∨ ((r.riskFactors.any fun f => f.type == FactorType.temperature) ∧
             (r.riskFactors.any fun f => f.type == FactorType.wound &&
               jsIncludes f.description "infection")) then
        UrgencyLevel.immediate
       else if (r.riskFactors.any fun f => f.type == FactorType.temperature)
           ∨ 1 ≤ r.riskFactors.countP
             (fun f => f.severity == Severity.severe) then
        UrgencyLevel.high
       else if 2 ≤ r.riskFactors.countP
           (fun f => f.severity == Severity.moderate) then
        UrgencyLevel.medium
       else UrgencyLevel.low) := by
  rcases hm : mapGet e.protocols p.surgeryType with _ | proto
  · simp [Engine.assessPatientRisk, hm] at h
  · simp only [Engine.assessPatientRisk, hm, Except.ok.injEq] at h
    subst h
    simpa [assessResult] using
      determineUrgencyLevel_eq_spec ((assessResult now proto p).riskFactors)

/-- Witness for C2 at a concrete engine and patient. -/
theorem C2_urgency_level_witness :
    (Engine.assessPatientRisk day5 demoEngine demoPatient).1 =
      .ok (assessResult day5 demoProtocol demoPatient) ∧
    (assessResult day5 demoProtocol demoPatient).urgencyLevel =
      (if 4 ≤ (assessResult day5 demoProtocol demoPatient).riskFactors.countP
          (fun f => f.severity == Severity.severe) ∨
          (((assessResult day5 demoProtocol demoPatient).riskFactors.any
             fun f => f.type == FactorType.temperature) ∧
           ((assessResult day5 demoProtocol demoPatient).riskFactors.any
             fun f => f.type == FactorType.wound &&
               jsIncludes f.description "infection")) then
        UrgencyLevel.immediate
       else if ((assessResult day5 demoProtocol demoPatient).riskFactors.any
           fun f => f.type == FactorType.temperature) ∨
           1 ≤ (assessResult day5 demoProtocol
             demoPatient).riskFactors.countP
             (fun f => f.severity == Severity.severe) then
        UrgencyLevel.high
       else if 2 ≤ (assessResult day5 demoProtocol
           demoPatient).riskFactors.countP
           (fun f => f.severity == Severity.moderate) then
        UrgencyLevel.medium
       else UrgencyLevel.low) := by
  have h : (Engine.assessPatientRisk day5 demoEngine demoPatient).1 =
      .ok (assessResult day5 demoProtocol demoPatient) := by rfl
  exact ⟨h, C2_urgency_level day5 demoEngine demoPatient _ h⟩

/-- C4: when no protocol is registered for the patient's surgery type,
`assessPatientRisk` fails with the lookup error `MedError.noProtocol`
(a constructor disjoint from every construction/validation error), and
the engine state — in particular the patient's assessment history — is
unchanged. -/
theorem C4_unregistered_lookup_error (now : Int) (e : Engine)
    (p : Patient) (h : mapGet e.protocols p.surgeryType = none) :
    (Engine.assessPatientRisk now e p).1 =
      .error (.noProtocol p.surgeryType) ∧
    (Engine.assessPatientRisk now e p).2 = e ∧
    Engine.getAssessmentHistory (Engine.assessPatientRisk now e p).2
        p.id =
      Engine.getAssessmentHistory e p.id := by
  refine ⟨?_, ?_, ?_⟩ <;> simp [Engine.assessPatientRisk, h]

/-- Witness for C4: a cardiac-bypass patient against an engine that only
knows the knee protocol. -/
theorem C4_unregistered_lookup_error_witness :
    mapGet demoEngine.protocols "CARDIAC_BYPASS" = none ∧
    ((Engine.assessPatientRisk 0 demoEngine
        { demoPatient with surgeryType := "CARDIAC_BYPASS" }).1 =
      .error (.noProtocol "CARDIAC_BYPASS") ∧
    (Engine.assessPatientRisk 0 demoEngine
        { demoPatient with surgeryType := "CARDIAC_BYPASS" }).2 =
      demoEngine ∧
    Engine.getAssessmentHistory
        (Engine.assessPatientRisk 0 demoEngine
          { demoPatient with surgeryType := "CARDIAC_BYPASS" }).2
        { demoPatient with surgeryType := "CARDIAC_BYPASS" }.id =
      Engine.getAssessmentHistory demoEngine
        { demoPatient with surgeryType := "CARDIAC_BYPASS" }.id) := by
  have h : mapGet demoEngine.protocols
      ({ demoPatient with surgeryType := "CARDIAC_BYPASS" } :
        Patient).surgeryType = none := by rfl
  exact ⟨h, C4_unregistered_lookup_error 0 demoEngine _ h⟩

/-- C5 (code bug): `updateProtocol` assigns the merged fields to the
object BEFORE re-validating, so when validation fails the call throws
but the mutation stays visible: starting from the valid `demoProtocol`
(`typicalDuration = 90`), an update with `typicalDuration = -1` throws
`Invalid protocol update` yet leaves the object with
`typicalDuration = -1` (and hence `validate = false`), contradicting the
documented no-partial-mutation contract. -/
theorem C5_update_protocol_mutation_visible :
    demoProtocol.performValidationErrors = [] ∧
    (demoProtocol.updateProtocol 999 (some badDurationPatch) none none).1 =
      .error (.invalidProtocolUpdate ["Typical duration must be positive"]) ∧
    (demoProtocol.updateProtocol 999 (some badDurationPatch) none
        none).2.metadata.typicalDuration = -1 ∧
    demoProtocol.metadata.typicalDuration = 90 ∧
    (demoProtocol.updateProtocol 999 (some badDurationPatch) none
        none).2.validate = false := by
  refine ⟨rfl, rfl, rfl, rfl, rfl⟩

/-- C8 (code bug): the profile validation runs
`!this.profile.age || age < 0 || age > 150`, and in JavaScript `!0` is
`true`, so age 0 — inside the documented 0–150 range, and explicitly
permitted by the separate `age < 0` bound — is rejected while ages 1 and
150 are accepted and ages -1 and 151 are rejected. -/
theorem C8_age_zero_rejected :
    constructWithAge 0 = .error .invalidPatientData ∧
    (constructWithAge 1).isOk = true ∧
    (constructWithAge 150).isOk = true ∧
    (constructWithAge (-1)).isOk = false ∧
    (constructWithAge 151).isOk = false := by
  refine ⟨rfl, rfl, rfl, rfl, rfl⟩

/-- Wire round-trip of a single symptom report is the identity. -/
theorem SymptomReportJSON.parse_toJSON (s : SymptomReport) :
    s.toJSON.parse = s := rfl

/-- C7 counterexample: for a valid patient that has received one
`updateSymptoms` call, `fromJSON(toJSON(P))` succeeds but the
reconstructed patient's symptom history is NOT identical to `P`'s:
the serialized two-entry history is dropped and re-seeded with the
single current report, so the claimed field-for-field round-trip law
fails on `symptomHistory`. -/
theorem C7_roundtrip_counterexample :
    Patient.fromJSON 2000 patientAfterUpdate.toJSON =
      .ok reloadedPatient ∧
    patientAfterUpdate.symptomHistory.length = 2 ∧
    reloadedPatient.symptomHistory.length = 1 ∧
    reloadedPatient.symptomHistory ≠ patientAfterUpdate.symptomHistory := by
  refine ⟨rfl, rfl, rfl, by decide⟩

/-- C7 (amended): for every valid patient `P`,
`Patient.fromJSON(P.toJSON())` succeeds — dates crossing the wire as
ISO-8601 strings and parsed back to date values — and reproduces `P`'s
id (hence full name and profile), medical history, surgery type, surgery
date, current symptoms and doctor id exactly; but because `fromJSON`
hands only those fields to the constructor, the reconstructed symptom
history is re-seeded to `[currentSymptoms]` (and the entity timestamps
are fresh) rather than round-tripping `P`'s stored history. -/
theorem C7_roundtrip_amended (now : Int) (p : Patient)
    (hid : p.id ≠ "") (hval : p.validate = true) :
    Patient.fromJSON now p.toJSON =
      .ok { p with symptomHistory := [p.currentSymptoms],
                   lastUpdateTime := none,
                   createdAt := now, updatedAt := now } := by
  have h1 : ¬ (p.toJSON.id = "") := hid
  simp only [Patient.fromJSON, Patient.construct, if_neg h1]
  split
  · next q heq =>
    split at heq
    · next =>
      cases heq
      rfl
    · next => exact Except.noConfusion heq
  · next e heq =>
    split at heq
    · next => exact Except.noConfusion heq
    · next hv => exact absurd hval hv

/-- Witness for the amended C7 round-trip law at `patientAfterUpdate`. -/
theorem C7_roundtrip_amended_witness :
    patientAfterUpdate.id ≠ "" ∧
    patientAfterUpdate.validate = true ∧
    Patient.fromJSON 2000 patientAfterUpdate.toJSON =
      .ok { patientAfterUpdate with
            symptomHistory := [patientAfterUpdate.currentSymptoms],
            lastUpdateTime := none,
            createdAt := 2000, updatedAt := 2000 } := by
  have ha : patientAfterUpdate.id ≠ "" := by decide
  have hb : patientAfterUpdate.validate = true := by decide
  exact ⟨ha, hb, C7_roundtrip_amended 2000 patientAfterUpdate ha hb⟩

/-- C6 counterexample: `trendPatient` has at least two prior reports and
its current pain (7) equals the pain of the immediately preceding
report (increase 0 < 3), yet the pain scan emits a SEVERE pain-trend
factor — because the code reads `symptomHistory[length - 2]` (pain 1,
increase 6) while `getSymptomHistory()` excludes the current report, so
index `length - 2` is the second-most-recent archived report, not the
immediately preceding one. -/
theorem C6_trend_counterexample :
    2 ≤ trendPatient.symptomHistory.length ∧
    trendPatient.symptomHistory.getLast?.map
        (fun s => s.painLevel) = some 7 ∧
    trendPatient.currentSymptoms.painLevel = 7 ∧
    (assessPainRisk 2000 trendPatient demoProtocol
        (trendPatient.getRecoveryDay 2000)).any
      (fun f =>
        f.guidelineReference == some "Pain trend monitoring guidelines" &&
        f.severity == Severity.severe) = true := by
  refine ⟨by decide, by decide, by decide, by decide⟩

/-- C6 (amended): whenever the archived symptom history holds at least 2
reports, the pain scan appends exactly the trend factors determined by
comparing the current pain to the pain of the SECOND-most-recent
archived report (`symptomHistory[length - 2]` — the report before the
immediately preceding one, the two coinciding only right after the
first update): an increase of at least 5 emits a severe trend factor,
at least 3 a moderate one, and a smaller increase none.  The prefix is
the pain scan run without any history (deviation and high-pain factors,
which never read the history). -/
theorem C6_trend_uses_second_most_recent (now : Int) (p : Patient)
    (protocol : SurgeryProtocol) (recoveryDay : Int)
    (h2 : 2 ≤ p.symptomHistory.length) :
    assessPainRisk now p protocol recoveryDay =
      assessPainRisk now { p with symptomHistory := [] } protocol
        recoveryDay ++
      (let previousPain :=
        ((p.symptomHistory.get? (p.symptomHistory.length - 2)).getD
          p.currentSymptoms).painLevel
       let painIncrease := p.currentSymptoms.painLevel - previousPain
       if 3 ≤ painIncrease then [mkTrendFactor now painIncrease]
       else []) := by
  simp only [assessPainRisk, mkTrendFactor, List.length_nil]
  rw [if_pos h2]
  have h0 : ¬ (2 ≤ (0 : Nat)) := by omega
  rw [if_neg h0]
  split
  · rfl
  · simp

/-- Witness for the amended C6 at `trendPatient`. -/
theorem C6_trend_uses_second_most_recent_witness :
    2 ≤ trendPatient.symptomHistory.length ∧
    assessPainRisk 2000 trendPatient demoProtocol 0 =
      assessPainRisk 2000 { trendPatient with symptomHistory := [] }
        demoProtocol 0 ++
      (let previousPain :=
        ((trendPatient.symptomHistory.get?
            (trendPatient.symptomHistory.length - 2)).getD
          trendPatient.currentSymptoms).painLevel
       let painIncrease :=
         trendPatient.currentSymptoms.painLevel - previousPain
       if 3 ≤ painIncrease then [mkTrendFactor 2000 painIncrease]
       else []) := by
  have h : 2 ≤ trendPatient.symptomHistory.length := by decide
  exact ⟨h,
    C6_trend_uses_second_most_recent 2000 trendPatient demoProtocol 0 h⟩

/-- After a replacing `mapSet`, `find?` on the key yields the new
binding. -/
theorem find?_replace {β : Type} (m : List (String × β)) (k : String)
    (v : β) (h : m.any (fun kv => kv.1 == k) = true) :
    (m.map fun kv => if kv.1 == k then (k, v) else kv).find?
      (fun kv => kv.1 == k) = some (k, v) := by
  induction m with
  | nil => simp at h
  | cons hd t ih =>
    by_cases hh : (hd.1 == k) = true
    · rw [List.map_cons, if_pos hh, List.find?_cons_of_pos _ (by simp)]
    · have h' : t.any (fun kv => kv.1 == k) = true := by
        simpa [List.any_cons, hh] using h
      rw [List.map_cons, if_neg hh,
        List.find?_cons_of_neg _ (by simpa using hh)]
      exact ih h'

/-- `Map.set` followed by `Map.get` on the same key returns the stored
value. -/
theorem mapGet_mapSet {β : Type} (m : List (String × β)) (k : String)
    (v : β) : mapGet (mapSet m k v) k = some v := by
  unfold mapGet mapSet
  by_cases hany : m.any (fun kv => kv.1 == k) = true
  · rw [if_pos hany, find?_replace m k v hany]
    rfl
  · rw [if_neg hany]
    have hnone : m.find? (fun kv => kv.1 == k) = none := by
      rw [List.find?_eq_none]
      intro x hx hpx
      exact hany (List.any_eq_true.mpr ⟨x, hx, hpx⟩)
    rw [List.find?_append, hnone]
    simp [List.find?]

/-- `assessPatientRisk` never touches the protocol registry. -/
theorem assess_protocols (now : Int) (e : Engine) (p : Patient) :
    (Engine.assessPatientRisk now e p).2.protocols = e.protocols := by
  unfold Engine.assessPatientRisk
  split <;> rfl

/-- A successful assessment replaces the patient's stored history by the
capped push of the computed result. -/
theorem assess_hist (now : Int) (e : Engine) (p : Patient)
    (proto : SurgeryProtocol)
    (hm : mapGet e.protocols p.surgeryType = some proto) :
    Engine.getAssessmentHistory (Engine.assessPatientRisk now e p).2
        p.id =
      storeAssessmentHistory (Engine.getAssessmentHistory e p.id)
        (assessResult now proto p) := by
  simp only [Engine.assessPatientRisk, hm, Engine.getAssessmentHistory]
  rw [mapGet_mapSet]
  rfl

/-- Below the cap, the capped push is an append followed by dropping the
overflow from the front. -/
theorem store_eq_drop (h : List RiskAssessmentResult)
    (r : RiskAssessmentResult) (hlen : h.length ≤ 30) :
    storeAssessmentHistory h r =
      (h ++ [r]).drop (h.length + 1 - 30) := by
  simp only [storeAssessmentHistory]
  split
  · next hgt =>
    have h30 : h.length = 30 := by
      simp [List.length_append] at hgt
      omega
    have : h.length + 1 - 30 = 1 := by omega
    rw [this, List.drop_one]
  · next hle =>
    have : h.length + 1 - 30 = 0 := by
      simp [List.length_append] at hle
      omega
    rw [this, List.drop_zero]

/-- Trace formula for the per-patient history over a run of sequential
assessments: the history is the concatenated run of results with the
overflow beyond 30 dropped from the front. -/
theorem assessLoop_hist (p : Patient) (proto : SurgeryProtocol)
    (times : List Int) :
    ∀ e : Engine, mapGet e.protocols p.surgeryType = some proto →
      (Engine.getAssessmentHistory e p.id).length ≤ 30 →
      Engine.getAssessmentHistory (assessLoop p times e) p.id =
        (Engine.getAssessmentHistory e p.id ++
            times.map fun t => assessResult t proto p).drop
          ((Engine.getAssessmentHistory e p.id).length +
            times.length - 30) := by
  induction times with
  | nil =>
    intro e hm hlen
    have h0 : (Engine.getAssessmentHistory e p.id).length +
        ([] : List Int).length - 30 = 0 := by
      simp
      omega
    rw [h0]
    simp [assessLoop]
  | cons t ts ih =>
    intro e hm hlen
    have hm1 : mapGet (Engine.assessPatientRisk t e p).2.protocols
        p.surgeryType = some proto := by
      rw [assess_protocols]
      exact hm
    have hh1 := assess_hist t e p proto hm
    have hd1 := store_eq_drop (Engine.getAssessmentHistory e p.id)
      (assessResult t proto p) hlen
    have hlen1 : (Engine.getAssessmentHistory
        (Engine.assessPatientRisk t e p).2 p.id).length ≤ 30 := by
      rw [hh1, hd1]
      simp [List.length_drop, List.length_append]
      omega
    have hloop : assessLoop p (t :: ts) e =
        assessLoop p ts (Engine.assessPatientRisk t e p).2 := rfl
    rw [hloop, ih _ hm1 hlen1, hh1, hd1]
    rw [← List.drop_append_of_le_length
      (by simp [List.length_append]; omega)]
    rw [List.drop_drop]
    rw [List.append_assoc, List.singleton_append]
    congr 1
    simp [List.length_drop, List.length_append, List.map_cons,
      List.length_cons]
    omega

/-- C3: starting from an empty per-patient history, a run of sequential
`assessPatientRisk` calls keeps exactly the results of the calls in call
order with everything but the most recent 30 evicted from the front, and
the history length is `min`(number of calls, 30) — in particular it
never exceeds 30, each successful call appends exactly one result, and
after 40 calls the most recent 30 remain (oldest first). -/
theorem C3_history_fifo_cap (e : Engine) (p : Patient)
    (proto : SurgeryProtocol) (times : List Int)
    (hm : mapGet e.protocols p.surgeryType = some proto)
    (h0 : Engine.getAssessmentHistory e p.id = []) :
    Engine.getAssessmentHistory (assessLoop p times e) p.id =
      (times.map fun t => assessResult t proto p).drop
        (times.length - 30) ∧
    (Engine.getAssessmentHistory (assessLoop p times e) p.id).length =
      min times.length 30 := by
  have hlen : (Engine.getAssessmentHistory e p.id).length ≤ 30 := by
    rw [h0]
    simp
  have htrace := assessLoop_hist p proto times e hm hlen
  rw [h0] at htrace
  simp only [List.nil_append, List.length_nil, Nat.zero_add] at htrace
  refine ⟨htrace, ?_⟩
  rw [htrace]
  simp [List.length_drop, List.length_map]
  omega

/-- Witness for C3: 40 sequential calls at times 0..39 against the demo
engine leave exactly the results of calls 10..39, thirty entries. -/
theorem C3_history_fifo_cap_witness :
    mapGet demoEngine.protocols demoPatient.surgeryType =
      some demoProtocol ∧
    Engine.getAssessmentHistory demoEngine demoPatient.id = [] ∧
    (Engine.getAssessmentHistory
        (assessLoop demoPatient ((List.range 40).map Int.ofNat)
          demoEngine) demoPatient.id =
      (((List.range 40).map Int.ofNat).map
          fun t => assessResult t demoProtocol demoPatient).drop
        (((List.range 40).map Int.ofNat).length - 30) ∧
    (Engine.getAssessmentHistory
        (assessLoop demoPatient ((List.range 40).map Int.ofNat)
          demoEngine) demoPatient.id).length =
      min ((List.range 40).map Int.ofNat).length 30) := by
  have hm : mapGet demoEngine.protocols demoPatient.surgeryType =
      some demoProtocol := by rfl
  have h0 : Engine.getAssessmentHistory demoEngine demoPatient.id =
      [] := by rfl
  exact ⟨hm, h0, C3_history_fifo_cap demoEngine demoPatient demoProtocol
    ((List.range 40).map Int.ofNat) hm h0⟩

/-- `Math.round` of a convex combination of two integers stays between
them. -/
theorem jsRound_convex (a b : Int) (s : ℚ) (h0 : 0 ≤ s) (h1 : s ≤ 1) :
    min a b ≤ jsRound ((a : ℚ) + s * ((b : ℚ) - (a : ℚ))) ∧
    jsRound ((a : ℚ) + s * ((b : ℚ) - (a : ℚ))) ≤ max a b := by
  have hfloor : ∀ z : Int, ⌊(z : ℚ) + 1 / 2⌋ = z := by
    intro z
    rw [add_comm, Int.floor_add_int]
    norm_num
  have hlow : ((min a b : Int) : ℚ) ≤ (a : ℚ) + s * ((b : ℚ) - (a : ℚ)) := by
    rcases le_total a b with hab | hab
    · have hab' : (a : ℚ) ≤ (b : ℚ) := by exact_mod_cast hab
      have hm : (0 : ℚ) ≤ s * ((b : ℚ) - (a : ℚ)) :=
        mul_nonneg h0 (by linarith)
      rw [min_eq_left hab]
      linarith
    · have hab' : (b : ℚ) ≤ (a : ℚ) := by exact_mod_cast hab
      have hm : (0 : ℚ) ≤ (1 - s) * ((a : ℚ) - (b : ℚ)) :=
        mul_nonneg (by linarith) (by linarith)
      rw [min_eq_right hab]
      nlinarith
  have hhigh : (a : ℚ) + s * ((b : ℚ) - (a : ℚ)) ≤ ((max a b : Int) : ℚ) := by
    rcases le_total a b with hab | hab
    · have hab' : (a : ℚ) ≤ (b : ℚ) := by exact_mod_cast hab
      have hm : s * ((b : ℚ) - (a : ℚ)) ≤ 1 * ((b : ℚ) - (a : ℚ)) :=
        mul_le_mul_of_nonneg_right h1 (by linarith)
      rw [max_eq_right hab]
      linarith
    · have hab' : (b : ℚ) ≤ (a : ℚ) := by exact_mod_cast hab
      have hm : s * ((b : ℚ) - (a : ℚ)) ≤ 0 :=
        mul_nonpos_of_nonneg_of_nonpos h0 (by linarith)
      rw [max_eq_left hab]
      linarith
  unfold jsRound
  constructor
  · have h := Int.floor_le_floor (add_le_add_right hlow (1 / 2 : ℚ))
    rwa [hfloor (min a b)] at h
  · have h := Int.floor_le_floor (add_le_add_right hhigh (1 / 2 : ℚ))
    rwa [hfloor (max a b)] at h

/-- C9: for a day with no exact curve point but with a lower and an
upper neighbour, `getExpectedRecovery` returns the linearly interpolated
(rounded) point, and both bounds of its pain range lie between the
corresponding bounds of the two neighbouring points, inclusive. -/
theorem C9_interpolation_bounds (sp : SurgeryProtocol) (day : Int)
    (lower upper : RecoveryCurvePoint)
    (hexact : sp.recoveryCurve.find? (fun rc => rc.day == day) = none)
    (hlo : ((sortByDay sp.recoveryCurve).filter
        (fun rc => rc.day < day)).getLast? = some lower)
    (hup : (sortByDay sp.recoveryCurve).find?
        (fun rc => day < rc.day) = some upper) :
    sp.getExpectedRecovery day =
      some (interpolatePoints lower upper day) ∧
    min lower.expectedPainRange.1 upper.expectedPainRange.1 ≤
      (interpolatePoints lower upper day).expectedPainRange.1 ∧
    (interpolatePoints lower upper day).expectedPainRange.1 ≤
      max lower.expectedPainRange.1 upper.expectedPainRange.1 ∧
    min lower.expectedPainRange.2 upper.expectedPainRange.2 ≤
      (interpolatePoints lower upper day).expectedPainRange.2 ∧
    (interpolatePoints lower upper day).expectedPainRange.2 ≤
      max lower.expectedPainRange.2 upper.expectedPainRange.2 := by
  have hlod : lower.day < day := by
    have hmem : lower ∈ (sortByDay sp.recoveryCurve).filter
        (fun rc => rc.day < day) := by
      rcases List.getLast?_eq_some_iff.mp hlo with ⟨ys, hys⟩
      rw [hys]
      exact List.mem_append_right _ (by simp)
    have hp := (List.mem_filter.mp hmem).2
    simpa using hp
  have hupd : day < upper.day := by
    have hp := List.find?_some hup
    simpa using hp
  have hden : (0 : ℚ) < (upper.day : ℚ) - (lower.day : ℚ) := by
    have hd : lower.day < upper.day := lt_trans hlod hupd
    have hd' : (lower.day : ℚ) < (upper.day : ℚ) := by exact_mod_cast hd
    linarith
  have hs0 : 0 ≤ ((day : ℚ) - (lower.day : ℚ)) /
      ((upper.day : ℚ) - (lower.day : ℚ)) := by
    apply div_nonneg _ hden.le
    have hd' : (lower.day : ℚ) < (day : ℚ) := by exact_mod_cast hlod
    linarith
  have hs1 : ((day : ℚ) - (lower.day : ℚ)) /
      ((upper.day : ℚ) - (lower.day : ℚ)) ≤ 1 := by
    rw [div_le_one hden]
    have hd' : (day : ℚ) < (upper.day : ℚ) := by exact_mod_cast hupd
    linarith
  have h1 := jsRound_convex lower.expectedPainRange.1
    upper.expectedPainRange.1 _ hs0 hs1
  have h2 := jsRound_convex lower.expectedPainRange.2
    upper.expectedPainRange.2 _ hs0 hs1
  refine ⟨?_, h1.1, h1.2, h2.1, h2.2⟩
  simp only [SurgeryProtocol.getExpectedRecovery, hexact, hlo, hup]

/-- Witness for C9: day 5 of the demo knee curve lies strictly between
the day-3 and day-7 points. -/
theorem C9_interpolation_bounds_witness :
    demoProtocol.recoveryCurve.find? (fun rc => rc.day == 5) = none ∧
    ((sortByDay demoProtocol.recoveryCurve).filter
        (fun rc => rc.day < 5)).getLast? = some (demoCurve.get ⟨1, by decide⟩) ∧
    (sortByDay demoProtocol.recoveryCurve).find?
        (fun rc => 5 < rc.day) = some (demoCurve.get ⟨2, by decide⟩) ∧
    (demoProtocol.getExpectedRecovery 5 =
        some (interpolatePoints (demoCurve.get ⟨1, by decide⟩)
          (demoCurve.get ⟨2, by decide⟩) 5) ∧
      min (demoCurve.get ⟨1, by decide⟩).expectedPainRange.1
          (demoCurve.get ⟨2, by decide⟩).expectedPainRange.1 ≤
        (interpolatePoints (demoCurve.get ⟨1, by decide⟩)
          (demoCurve.get ⟨2, by decide⟩) 5).expectedPainRange.1 ∧
      (interpolatePoints (demoCurve.get ⟨1, by decide⟩)
          (demoCurve.get ⟨2, by decide⟩) 5).expectedPainRange.1 ≤
        max (demoCurve.get ⟨1, by decide⟩).expectedPainRange.1
          (demoCurve.get ⟨2, by decide⟩).expectedPainRange.1 ∧
      min (demoCurve.get ⟨1, by decide⟩).expectedPainRange.2
          (demoCurve.get ⟨2, by decide⟩).expectedPainRange.2 ≤
        (interpolatePoints (demoCurve.get ⟨1, by decide⟩)
          (demoCurve.get ⟨2, by decide⟩) 5).expectedPainRange.2 ∧
      (interpolatePoints (demoCurve.get ⟨1, by decide⟩)
          (demoCurve.get ⟨2, by decide⟩) 5).expectedPainRange.2 ≤
        max (demoCurve.get ⟨1, by decide⟩).expectedPainRange.2
          (demoCurve.get ⟨2, by decide⟩).expectedPainRange.2) := by
  have ha : demoProtocol.recoveryCurve.find?
      (fun rc => rc.day == 5) = none := by rfl
  have hb : ((sortByDay demoProtocol.recoveryCurve).filter
      (fun rc => rc.day < 5)).getLast? =
      some (demoCurve.get ⟨1, by decide⟩) := by rfl
  have hc : (sortByDay demoProtocol.recoveryCurve).find?
      (fun rc => 5 < rc.day) = some (demoCurve.get ⟨2, by decide⟩) := by
    rfl
  exact ⟨ha, hb, hc,
    C9_interpolation_bounds demoProtocol 5 _ _ ha hb hc⟩

/-- A successful `updateSymptoms` appends exactly the old current report
to the history (removing nothing) and installs a report carrying the new
report's timestamp (the batch clamp can only alter the pain level). -/
theorem updateSymptoms_ok (t : Int) (p q : Patient) (r : SymptomReport)
    (h : Patient.updateSymptoms t p r = .ok q) :
    q.symptomHistory = p.symptomHistory ++ [p.currentSymptoms] ∧
    q.currentSymptoms.reportedAt = r.reportedAt := by
  simp only [Patient.updateSymptoms] at h
  split at h <;> split at h <;>
    first
      | exact Except.noConfusion h
      | (cases h; exact ⟨rfl, rfl⟩)

/-- Timestamp trace of a successful update chain: the stored history
carries the timestamps of the initial current report and of all but the
last submitted report, and the final current report carries the last
submitted timestamp. -/
theorem updateSeq_timestamps (us : List (Int × SymptomReport)) :
    ∀ p q : Patient, updateSeq p us = .ok q →
      q.symptomHistory.map (fun s => s.reportedAt) =
        p.symptomHistory.map (fun s => s.reportedAt) ++
          (p.currentSymptoms.reportedAt ::
            us.map (fun u => u.2.reportedAt)).dropLast ∧
      (p.currentSymptoms.reportedAt ::
          us.map (fun u => u.2.reportedAt)).getLast? =
        some q.currentSymptoms.reportedAt := by
  induction us with
  | nil =>
    intro p q h
    simp only [updateSeq] at h
    cases h
    exact ⟨by simp, by simp⟩
  | cons u us ih =>
    intro p q h
    simp only [updateSeq] at h
    rcases hu : Patient.updateSymptoms u.1 p u.2 with e | p1 <;>
      rw [hu] at h
    · exact Except.noConfusion h
    · obtain ⟨hh, hc⟩ := updateSymptoms_ok u.1 p p1 u.2 hu
      obtain ⟨ih1, ih2⟩ := ih p1 q h
      constructor
      · have hd : (p.currentSymptoms.reportedAt :: u.2.reportedAt ::
            us.map (fun x => x.2.reportedAt)).dropLast =
            p.currentSymptoms.reportedAt :: (u.2.reportedAt ::
              us.map (fun x => x.2.reportedAt)).dropLast :=
          List.dropLast_cons_of_ne_nil (by simp)
        rw [ih1, hh, hc]
        simp only [List.map_cons]
        rw [hd]
        simp [List.append_assoc]
      · rw [← ih2, hc, List.map_cons, List.getLast?_cons_cons]

/-- A non-empty successful update chain leaves the original history,
then the original current report, at the front of the stored history. -/
theorem updateSeq_archive_front (us : List (Int × SymptomReport)) :
    ∀ p q : Patient, us ≠ [] → updateSeq p us = .ok q →
      ∃ rest, q.symptomHistory =
        p.symptomHistory ++ p.currentSymptoms :: rest := by
  induction us with
  | nil => intro p q hne; exact absurd rfl hne
  | cons u us ih =>
    intro p q _ h
    simp only [updateSeq] at h
    rcases hu : Patient.updateSymptoms u.1 p u.2 with e | p1 <;>
      rw [hu] at h
    · exact Except.noConfusion h
    · obtain ⟨hh, _⟩ := updateSymptoms_ok u.1 p p1 u.2 hu
      by_cases hus : us = []
      · subst hus
        simp only [updateSeq] at h
        cases h
        exact ⟨[], by rw [hh]⟩
      · obtain ⟨rest1, hrest⟩ := ih p1 q hus h
        refine ⟨p1.currentSymptoms :: rest1, ?_⟩
        rw [hrest, hh, List.append_assoc, List.singleton_append]

/-- The `Patient` constructor seeds the history with the initial report
and installs it as current. -/
theorem construct_seeds (now : Int) (id : String)
    (profile : PatientProfile) (st : String) (sd : Int)
    (init : SymptomReport) (mh : MedicalHistory)
    (did : Option String) (p : Patient)
    (h : Patient.construct now id profile st sd init mh did = .ok p) :
    p.symptomHistory = [init] ∧ p.currentSymptoms = init := by
  simp only [Patient.construct] at h
  split at h
  · exact Except.noConfusion h
  · split at h
    · cases h
      exact ⟨rfl, rfl⟩
    · exact Except.noConfusion h

/-- C10: construction seeds the symptom history with the initial report;
every successful `updateSymptoms` archives the old current report by
appending it (removing nothing); consequently after the first successful
update the stored history holds the initial report twice (seed +
archive), and — for reports distinguished by their timestamps, as the
freshness hypothesis states — the current report is never an element of
the stored history thereafter. -/
theorem C10_history_seed_and_archive (now0 : Int) (id : String)
    (profile : PatientProfile) (st : String) (sd : Int)
    (init : SymptomReport) (mh : MedicalHistory) (did : Option String)
    (p q : Patient) (us : List (Int × SymptomReport))
    (hc : Patient.construct now0 id profile st sd init mh did = .ok p)
    (hne : us ≠ [])
    (hq : updateSeq p us = .ok q)
    (hnodup : (init.reportedAt ::
        us.map fun u => u.2.reportedAt).Nodup) :
    p.symptomHistory = [init] ∧
    (∀ (t : Int) (p₁ p₂ : Patient) (r : SymptomReport),
        Patient.updateSymptoms t p₁ r = .ok p₂ →
        p₂.symptomHistory = p₁.symptomHistory ++ [p₁.currentSymptoms]) ∧
    q.symptomHistory.take 2 = [init, init] ∧
    q.currentSymptoms ∉ q.symptomHistory := by
  obtain ⟨hseed, hcur⟩ := construct_seeds _ _ _ _ _ _ _ _ _ hc
  refine ⟨hseed,
    fun t p₁ p₂ r h => (updateSymptoms_ok t p₁ p₂ r h).1, ?_, ?_⟩
  · obtain ⟨rest, hrest⟩ := updateSeq_archive_front us p q hne hq
    rw [hrest, hseed, hcur]
    rfl
  · intro hmem
    obtain ⟨hmap, hlast⟩ := updateSeq_timestamps us p q hq
    rw [hseed, hcur] at hmap
    rw [hcur] at hlast
    set T := us.map (fun u => u.2.reportedAt) with hT
    have hTne : T ≠ [] := by
      intro h0
      exact hne (List.map_eq_nil_iff.mp h0)
    have hLne : (init.reportedAt :: T) ≠ [] := by simp
    have hlast' : q.currentSymptoms.reportedAt =
        (init.reportedAt :: T).getLast hLne := by
      have hg := List.getLast?_eq_getLast (init.reportedAt :: T) hLne
      rw [hlast] at hg
      exact Option.some_injective _ hg
    have hsplit := List.dropLast_append_getLast hLne
    have hnodup2 : ((init.reportedAt :: T).dropLast ++
        [(init.reportedAt :: T).getLast hLne]).Nodup := by
      rw [hsplit]
      exact hnodup
    have hdisj := (List.nodup_append.mp hnodup2).2.2
    have hlast_notin : (init.reportedAt :: T).getLast hLne ∉
        (init.reportedAt :: T).dropLast := by
      intro hin
      exact hdisj hin (by simp)
    have hdl : (init.reportedAt :: T).dropLast =
        init.reportedAt :: T.dropLast :=
      List.dropLast_cons_of_ne_nil hTne
    have hinit_in : init.reportedAt ∈ (init.reportedAt :: T).dropLast := by
      rw [hdl]
      simp
    have hmem' : q.currentSymptoms.reportedAt ∈
        q.symptomHistory.map (fun s => s.reportedAt) :=
      List.mem_map_of_mem _ hmem
    rw [hmap] at hmem'
    simp only [List.map_cons, List.map_nil, List.singleton_append,
      List.cons_append, List.nil_append] at hmem'
    rcases List.mem_cons.mp hmem' with heq | hin
    · rw [hlast'] at heq
      rw [heq] at hlast_notin
      exact hlast_notin hinit_in
    · rw [hlast'] at hin
      exact hlast_notin hin

/-- Witness for C10 on a concrete two-update chain. -/
theorem C10_history_seed_and_archive_witness :
    Patient.construct 0 "patient-c10" demoProfile "KNEE_REPLACEMENT" 0
        (demoReport 5 0) emptyHistory none = .ok c10Patient ∧
    c10Updates ≠ [] ∧
    updateSeq c10Patient c10Updates = .ok c10Final ∧
    ((demoReport 5 0).reportedAt ::
        c10Updates.map fun u => u.2.reportedAt).Nodup ∧
    (c10Final.symptomHistory.take 2 = [demoReport 5 0, demoReport 5 0] ∧
      c10Final.currentSymptoms ∉ c10Final.symptomHistory) := by
  have h1 : Patient.construct 0 "patient-c10" demoProfile
      "KNEE_REPLACEMENT" 0 (demoReport 5 0) emptyHistory none =
      .ok c10Patient := by rfl
  have h2 : c10Updates ≠ [] := by decide
  have h3 : updateSeq c10Patient c10Updates = .ok c10Final := by rfl
  have h4 : ((demoReport 5 0).reportedAt ::
      c10Updates.map fun u => u.2.reportedAt).Nodup := by decide
  exact ⟨h1, h2, h3, h4,
    (C10_history_seed_and_archive 0 "patient-c10" demoProfile
      "KNEE_REPLACEMENT" 0 (demoReport 5 0) emptyHistory none
      c10Patient c10Final c10Updates h1 h2 h3 h4).2.2⟩

end CareFlow
